import Mathlib

/-!
Verification of the weather MCP client/server (`weather_mcp_client/build/index.js`).

Client side: the `MCPClient.processQuery` orchestration loop and the
`RequestHandler` chat-endpoint adapter.
Server side: the `get-alerts`, `get-latlong-from-name` and
`get-worldwide-forecast` tools, their zod argument schemas, and the WMO
weather-code formatter.

External effects (HTTP fetches, `JSON.parse`, `JSON.stringify` of dynamic
values, number rendering) are supplied as environment parameters; all control
flow and string assembly is translated from the source.
-/

namespace WeatherMCP

/-- JS `x || y` where `x` is a possibly-undefined string: `undefined` and the
empty string are falsy and select the fallback `y`. -/
def jsOrElse (o : Option String) (d : String) : String :=
  match o with
  | some s => if s = "" then d else s
  | none => d

/-- Minimal model of a JSON value, the result of a successful `JSON.parse`. -/
inductive Json where
  | null
  | bool (b : Bool)
  | num (n : Int)
  | str (s : String)
  | arr (elems : List Json)
  | obj (fields : List (String × Json))

/-- One entry of an assistant reply's `tool_calls` array:
`{id, function: {name, arguments}}` with `arguments` a JSON string. -/
structure ToolCall where
  id : String
  name : String
  arguments : String
deriving DecidableEq

/-- One entry of `conversationHistory`: a user message, an assistant message
(the parsed LLM reply, with its `content` and `tool_calls` fields), or a
tool-role result message. -/
inductive Message where
  | user (content : String)
  | assistant (content : Option String) (tool_calls : List ToolCall)
  | tool (tool_call_id : String) (name : String) (content : String)
deriving DecidableEq

/-- One item of `mcpToolResult.content`: `text` is its `.text` field when
present, `serialized` is what `JSON.stringify` (for objects) or `String`
(otherwise) renders for the whole item. -/
structure ContentItem where
  text : Option String
  serialized : String
deriving DecidableEq

/-- Outcome of one `mcp.callTool` invocation: a result object
`{content, isError}`, or a thrown transport-level error with its message. -/
inductive CallToolOutcome where
  | ok (content : List ContentItem) (isError : Bool)
  | thrown (message : String)

/-- The parsed message structure of one chat-endpoint reply:
`choices[0].message` with its `content` and `tool_calls` fields
(a missing `tool_calls` field is the empty list). -/
structure LLMReply where
  content : Option String
  tool_calls : List ToolCall

/-- External environment of the orchestration loop: `JSON.parse` applied to a
tool call's argument string, and the MCP tool host reached by `mcp.callTool`. -/
structure ClientEnv where
  parse : String → Option Json
  callTool : String → Json → CallToolOutcome

/-- `c.text || (typeof c === 'object' ? JSON.stringify(c) : String(c))`. -/
def contentItemText (c : ContentItem) : String :=
  jsOrElse c.text c.serialized

/-- The tool-result string built from a successful `mcp.callTool` result:
newline-join of the content items' texts (or a fixed message when the content
array is empty), with an error marker prefixed when `isError` is set. -/
def toolResultString (toolName : String) (content : List ContentItem)
    (isError : Bool) : String :=
  let s := if content.isEmpty then "Tool returned no content or an unexpected format."
           else String.intercalate "\n" (content.map contentItemText)
  if isError then
    "Tool " ++ toolName ++ " execution resulted in an error from server: " ++ s
  else s

/-- Processing of one entry of `toolCallsToExecute` inside `processQuery`: the
tool message pushed onto `conversationHistory`, and how many `mcp.callTool`
invocations were made (0 when the argument string fails to parse, 1 otherwise,
even when the call throws). -/
def execToolCall (env : ClientEnv) (tc : ToolCall) : Message × Nat :=
  match env.parse tc.arguments with
  | none =>
    (Message.tool tc.id tc.name ("Error: Could not parse arguments: " ++ tc.arguments), 0)
  | some args =>
    match env.callTool tc.name args with
    | CallToolOutcome.ok content isError =>
        (Message.tool tc.id tc.name (toolResultString tc.name content isError), 1)
    | CallToolOutcome.thrown msg =>
        (Message.tool tc.id tc.name
          ("Error executing tool " ++ tc.name ++ " via MCP: " ++
            jsOrElse (some msg) "Unknown MCP error"), 1)

/-- The `for (const toolCall of toolCallsToExecute)` loop: the pushed tool
messages in request order, and the total number of `mcp.callTool` invocations. -/
def execToolCalls (env : ClientEnv) (tcs : List ToolCall) : List Message × Nat :=
  (tcs.map fun tc => (execToolCall env tc).1,
   (tcs.map fun tc => (execToolCall env tc).2).sum)

/-- Fallback answer returned when the terminal reply has no usable `content`. -/
def noAnswerFallback : String :=
  "Sorry, I couldn\x27t get a final answer or the response was empty."

/-- Observable outcome of one `processQuery` run: the returned answer, the
final `conversationHistory`, the number of `queryWithHistory` calls made, and
the number of `mcp.callTool` invocations made. -/
structure RunResult where
  answer : String
  transcript : List Message
  endpointCalls : Nat
  hostCalls : Nat
deriving DecidableEq

/-- The `while (parsedLlmResponse.tool_calls && ...)` loop of `processQuery`.
`replies` scripts the chat endpoint: the reply produced by each successive
`queryWithHistory` call. An exhausted script models `queryWithHistory`
throwing, which `processQuery` propagates (`none`). -/
def runLoop (env : ClientEnv) (replies : List LLMReply) (hist : List Message)
    (endpointCalls hostCalls : Nat) : Option RunResult :=
  match replies with
  | [] => none
  | r :: rest =>
    if r.tool_calls.isEmpty then
      some ⟨jsOrElse r.content noAnswerFallback, hist, endpointCalls + 1, hostCalls⟩
    else
      let step := execToolCalls env r.tool_calls
      runLoop env rest
        ((hist ++ [Message.assistant r.content r.tool_calls]) ++ step.1)
        (endpointCalls + 1) (hostCalls + step.2)

/-- `MCPClient.processQuery`. `toolsOk` records whether `mcp.listTools()`
returned a well-formed tool list; when it did not, the function returns early
with a fixed apology and no transcript. -/
def processQuery (env : ClientEnv) (toolsOk : Bool) (replies : List LLMReply)
    (query : String) : Option RunResult :=
  if toolsOk then
    runLoop env replies [Message.user query] 0 0
  else
    some ⟨"Sorry, I\x27m having trouble accessing my tools right now.", [], 0, 0⟩

/-- The messages appended to the transcript during one tool round for reply
`r`: the assistant message followed by its tool results. -/
def assistantBlock (env : ClientEnv) (r : LLMReply) : List Message :=
  Message.assistant r.content r.tool_calls :: (execToolCalls env r.tool_calls).1

/-! ### RequestHandler (chat endpoint adapter) -/

/-- Mutable state of a `RequestHandler`: the `ready` flag and the
deduplicated, insertion-ordered `errors` set. -/
structure HandlerState where
  ready : Bool
  errors : List String
deriving DecidableEq

/-- `RequestHandler.recordError`: add the error's message to the `errors`
set (a JS `Set`, deduplicated by message text). -/
def recordError (st : HandlerState) (msg : String) : HandlerState :=
  { st with errors := if msg ∈ st.errors then st.errors else st.errors ++ [msg] }

/-- Outcome of one `_queryInternal` network exchange: the serialized
`choices[0].message` on success, or the thrown error's message (non-2xx
status, malformed body, or fetch failure). -/
inductive NetOutcome where
  | ok (reply : String)
  | fail (message : String)

/-- `RequestHandler._warmup`: one `_queryInternal` call; on success set
`ready`; on failure record the error and continue (no rethrow). -/
def warmup (st : HandlerState) (o : NetOutcome) : HandlerState :=
  match o with
  | NetOutcome.ok _ => { st with ready := true }
  | NetOutcome.fail m => recordError st m

/-- `RequestHandler.create()`: a fresh handler (`ready := false`,
`errors := ∅`) followed by one warm-up call. -/
def createHandler (warmupOutcome : NetOutcome) : HandlerState :=
  warmup ⟨false, []⟩ warmupOutcome

/-- `RequestHandler.queryWithHistory`: the returned (or thrown) value, the
number of network requests made by the call, and the updated state. -/
def queryWithHistory (st : HandlerState) (net : NetOutcome) :
    Except String String × Nat × HandlerState :=
  if st.ready then
    (match net with
     | NetOutcome.ok r => Except.ok r
     | NetOutcome.fail m => Except.error m, 1, st)
  else
    (Except.error "RequestHandler not ready", 0,
     recordError st "RequestHandler not ready")

/-! ### Server: data model and tool handlers -/

/-- One character's JS uppercase mapping: `String.prototype.toUpperCase`
maps each character to a string using the full Unicode case mappings, which
are not always single characters. This model is exact on the basic latin
(ASCII) range and on U+00DF (sharp s, whose uppercase mapping is "SS");
every other character is kept unchanged, which is inexact for the remaining
non-ASCII letters (such as the é→É mapping), so statements about uppercasing
quantify only over inputs on which the model is exact. -/
def jsUpperChar (c : Char) : List Char :=
  if c = 'ß' then ['S', 'S'] else [c.toUpper]

/-- Model of JS `String.prototype.toUpperCase`: the concatenation of the
per-character uppercase mappings. -/
def jsToUpperCase (s : String) : String := ⟨(s.data.map jsUpperChar).flatten⟩

/-- `NWS_API_BASE`. -/
def NWS_API_BASE : String := "https://api.weather.gov"

/-- The alerts URL built for an (already uppercased) state code. -/
def alertsUrl (stateCode : String) : String :=
  NWS_API_BASE ++ "/alerts/active?area=" ++ stateCode

/-- The URL `get-alerts` requests for raw input `state`. -/
def getAlertsRequestUrl (state : String) : String :=
  alertsUrl (jsToUpperCase state)

/-- `feature.properties` of one NWS alert feature; each field may be absent. -/
structure AlertProps where
  event : Option String
  areaDesc : Option String
  severity : Option String
  status : Option String
  headline : Option String
  description : Option String
  instruction : Option String

/-- One feature of the NWS alerts feature collection. -/
structure AlertFeature where
  properties : AlertProps

/-- Parsed body of the NWS alerts response; `features` may be absent
(`alertsData.features || []`). -/
structure AlertsData where
  features : Option (List AlertFeature)

/-- `formatNWSAlert`. -/
def formatNWSAlert (feature : AlertFeature) : String :=
  let props := feature.properties
  String.intercalate "\n"
    ["Event: " ++ jsOrElse props.event "Unknown",
     "Area: " ++ jsOrElse props.areaDesc "Unknown",
     "Severity: " ++ jsOrElse props.severity "Unknown",
     "Status: " ++ jsOrElse props.status "Unknown",
     "Headline: " ++ jsOrElse props.headline "No headline available",
     "Description: " ++ jsOrElse props.description "No description available.",
     "Instruction: " ++ jsOrElse props.instruction "No specific instructions.",
     "---"]

/-- A tool handler's returned `{content: [{type: "text", text}], isError?}`,
with the content items reduced to their text payloads. -/
structure ToolResponse where
  content : List String
  isError : Bool
deriving DecidableEq

/-- The `get-alerts` handler body; `net` models `makeAPIRequest` keyed by the
requested URL (`none` is a failed, non-2xx, or unparseable fetch). -/
def getAlertsHandler (net : String → Option AlertsData) (state : String) :
    ToolResponse :=
  let stateCode := jsToUpperCase state
  match net (alertsUrl stateCode) with
  | none =>
      ⟨["Failed to retrieve alerts data from NWS for " ++ stateCode ++
        ". The API might be down, the state code might be invalid, or there could be a network issue."],
       true⟩
  | some alertsData =>
      let features := alertsData.features.getD []
      if features.isEmpty then
        ⟨["No active NWS alerts for " ++ stateCode ++ " at this time."], false⟩
      else
        ⟨["Active NWS alerts for " ++ stateCode ++ ":\n\n" ++
          String.intercalate "\n" (features.map formatNWSAlert)], false⟩

/-- Invoking a registered tool through the MCP server: per the MCP SDK
`server.tool` contract, the declared zod schema validates the arguments
first, and a validation failure is returned as an error without executing
the handler (so without any outbound HTTP request). -/
inductive ToolRun where
  | schemaRejected
  | ran (response : ToolResponse)
deriving DecidableEq

/-- `get-alerts` as registered: zod schema
`state: z.string().length(2)`, then the handler. The second component counts
outbound HTTP requests made by the invocation. -/
def runGetAlerts (net : String → Option AlertsData) (state : String) :
    ToolRun × Nat :=
  if state.length = 2 then (ToolRun.ran (getAlertsHandler net state), 1)
  else (ToolRun.schemaRejected, 0)

/-- One entry of the Nominatim geocoding response array. -/
structure GeoEntry where
  lat : String
  lon : String
  display_name : String

/-- JS truthiness of a possibly-undefined string. -/
def jsTruthy (o : Option String) : Bool :=
  match o with
  | some s => s ≠ ""
  | none => false

/-- `current` block of the Open-Meteo response. Numeric fields are kept as
the strings their interpolation renders; `weather_code` is kept as the code
(absent when the field is missing). -/
structure CurrentWeather where
  time : String
  temperature_2m : String
  apparent_temperature : String
  relative_humidity_2m : String
  weather_code : Option Nat
  wind_speed_10m : String
  wind_direction_10m : String
  wind_gusts_10m : String
  precipitation : String
  cloud_cover : String
  pressure_msl : String

/-- `daily_units` block of the Open-Meteo response. -/
structure DailyUnits where
  temperature_2m_max : Option String
  temperature_2m_min : Option String
  precipitation_sum : Option String

/-- `daily` block of the Open-Meteo response: parallel arrays indexed by
day (out-of-range access renders as JS `undefined`). -/
structure DailyForecast where
  time : List String
  weather_code : List Nat
  temperature_2m_max : List String
  temperature_2m_min : List String
  precipitation_sum : Option (List String)

/-- Parsed body of the Open-Meteo forecast response. -/
structure ForecastData where
  error : Bool
  reason : Option String
  timezone : Option String
  current : Option CurrentWeather
  daily : Option DailyForecast
  daily_units : Option DailyUnits

/-- The fixed `WMO_CODES` table. -/
def WMO_CODES (code : Nat) : Option String :=
  match code with
  | 0 => some "Clear sky"
  | 1 => some "Mainly clear"
  | 2 => some "Partly cloudy"
  | 3 => some "Overcast"
  | 45 => some "Fog"
  | 48 => some "Depositing rime fog"
  | 51 => some "Light drizzle"
  | 53 => some "Moderate drizzle"
  | 55 => some "Dense drizzle"
  | 56 => some "Light freezing drizzle"
  | 57 => some "Dense freezing drizzle"
  | 61 => some "Slight rain"
  | 63 => some "Moderate rain"
  | 65 => some "Heavy rain"
  | 66 => some "Light freezing rain"
  | 67 => some "Heavy freezing rain"
  | 71 => some "Slight snow fall"
  | 73 => some "Moderate snow fall"
  | 75 => some "Heavy snow fall"
  | 77 => some "Snow grains"
  | 80 => some "Slight rain showers"
  | 81 => some "Moderate rain showers"
  | 82 => some "Violent rain showers"
  | 85 => some "Slight snow showers"
  | 86 => some "Heavy snow showers"
  | 95 => some "Thunderstorm"
  | 96 => some "Thunderstorm with slight hail"
  | 99 => some "Thunderstorm with heavy hail"
  | _ => none

/-- `getWeatherDescription`. -/
def getWeatherDescription (code : Option Nat) : String :=
  match code with
  | none => "Not available"
  | some c => jsOrElse (WMO_CODES c) ("Unknown weather code: " ++ toString c)

/-- Environment of the server handlers: the HTTP layers keyed by requested
URL, and the JS library primitives the handlers call — `parseFloat` (`none`
models `NaN`), `JSON.stringify` of the `{error}` / location objects,
`encodeURIComponent`, and `Number.prototype.toFixed`. -/
structure ServerEnv where
  netGeo : String → Option (List GeoEntry)
  netForecast : String → Option ForecastData
  parseFloat : String → Option Rat
  stringifyError : String → String
  stringifyLocation : String → Rat → Rat → String
  encodeURIComponent : String → String
  toFixed : Rat → Nat → String

/-- The `get-latlong-from-name` handler body. -/
def getLatLongHandler (env : ServerEnv) (locationName : String) : ToolResponse :=
  let geocodeApiUrl := "https://nominatim.openstreetmap.org/search?q=" ++
    env.encodeURIComponent locationName ++ "&format=json&limit=1&addressdetails=0"
  match env.netGeo geocodeApiUrl with
  | some (firstResult :: _) =>
      (match env.parseFloat firstResult.lat, env.parseFloat firstResult.lon with
       | some lat, some lon =>
           ⟨[env.stringifyLocation firstResult.display_name lat lon], false⟩
       | _, _ =>
           ⟨[env.stringifyError
              ("Nominatim returned invalid coordinate format for \x27" ++ locationName ++
               "\x27. Received lat: " ++ firstResult.lat ++ ", lon: " ++ firstResult.lon)],
            true⟩)
  | _ =>
      ⟨[env.stringifyError
          ("Could not find coordinates for the location: \x27" ++ locationName ++
           "\x27 using Nominatim. Please be more specific, check spelling, or the location might not be found.")],
       true⟩

/-- `get-latlong-from-name` as registered: zod schema
`locationName: z.string().min(1)`, then the handler. -/
def runGetLatLong (env : ServerEnv) (locationName : String) : ToolRun × Nat :=
  if 1 ≤ locationName.length then (ToolRun.ran (getLatLongHandler env locationName), 1)
  else (ToolRun.schemaRejected, 0)

/-- One day's block of the daily-forecast loop body. -/
def renderForecastDay (units : Option DailyUnits) (daily : DailyForecast)
    (i : Nat) : String :=
  "Date: " ++ (daily.time.get? i).getD "undefined" ++ "\n" ++
  "  Weather: " ++ getWeatherDescription (daily.weather_code.get? i) ++ "\n" ++
  "  Max Temp: " ++ (daily.temperature_2m_max.get? i).getD "undefined" ++
    jsOrElse (units.bind DailyUnits.temperature_2m_max) "°F" ++ "\n" ++
  "  Min Temp: " ++ (daily.temperature_2m_min.get? i).getD "undefined" ++
    jsOrElse (units.bind DailyUnits.temperature_2m_min) "°F" ++ "\n" ++
  (match daily.precipitation_sum with
   | some ps =>
       match ps.get? i with
       | some v =>
           "  Precipitation Sum: " ++ v ++
             jsOrElse (units.bind DailyUnits.precipitation_sum) "in" ++ "\n"
       | none => ""
   | none => "") ++
  "  ---\n"

/-- The multi-section report assembled by the `get-worldwide-forecast`
handler into `responseText` (before the final `.trim()`). -/
def forecastResponseText (env : ServerEnv) (latitude longitude : Rat)
    (tzParam : String) (forecastData : ForecastData) : String :=
  let header := "Weather Forecast for location (lat: " ++ env.toFixed latitude 2 ++
    ", lon: " ++ env.toFixed longitude 2 ++ "), Timezone: " ++
    jsOrElse forecastData.timezone tzParam ++ ":\n"
  let currentPart :=
    match forecastData.current with
    | some current =>
        "\n--- Current Weather ---\n" ++
        "Time: " ++ current.time ++ "\n" ++
        "Temperature: " ++ current.temperature_2m ++ "°F\n" ++
        "Apparent Temp: " ++ current.apparent_temperature ++ "°F\n" ++
        "Humidity: " ++ current.relative_humidity_2m ++ "%\n" ++
        "Weather: " ++ getWeatherDescription current.weather_code ++ "\n" ++
        "Wind: " ++ current.wind_speed_10m ++ " mph from " ++
          current.wind_direction_10m ++ "° (Gusts: " ++ current.wind_gusts_10m ++
          " mph)\n" ++
        "Precipitation: " ++ current.precipitation ++ " in\n" ++
        "Cloud Cover: " ++ current.cloud_cover ++ "%\n" ++
        "Pressure: " ++ current.pressure_msl ++ " hPa\n"
    | none => "Current weather data not available.\n"
  let dailyPart :=
    match forecastData.daily with
    | some daily =>
        if 0 < daily.time.length then
          "\n--- Daily Forecast (7 days) ---\n" ++
          String.join ((List.range daily.time.length).map
            (renderForecastDay forecastData.daily_units daily))
        else "Daily forecast data not available.\n"
    | none => "Daily forecast data not available.\n"
  header ++ currentPart ++ dailyPart

/-- The `get-worldwide-forecast` handler body. -/
def getForecastHandler (env : ServerEnv) (latitude longitude : Rat)
    (timezone : Option String) : ToolResponse :=
  let tzParam := match timezone with
    | some t => if t.trim = "" then "auto" else env.encodeURIComponent t
    | none => "auto"
  let forecastUrl := "https://api.open-meteo.com/v1/forecast?latitude=" ++
    env.toFixed latitude 4 ++ "&longitude=" ++ env.toFixed longitude 4 ++
    "&current=temperature_2m,relative_humidity_2m,apparent_temperature,is_day,precipitation,rain,showers,snowfall,weather_code,cloud_cover,pressure_msl,surface_pressure,wind_speed_10m,wind_direction_10m,wind_gusts_10m&daily=weather_code,temperature_2m_max,temperature_2m_min,precipitation_sum&temperature_unit=fahrenheit&wind_speed_unit=mph&precipitation_unit=inch&timezone=" ++
    tzParam ++ "&forecast_days=7"
  match env.netForecast forecastUrl with
  | none =>
      ⟨[env.stringifyError "Failed to retrieve forecast data from Open-Meteo. The API might be temporarily unavailable or location parameters are invalid."],
       true⟩
  | some forecastData =>
      if forecastData.error && jsTruthy forecastData.reason then
        ⟨[env.stringifyError ("Open-Meteo forecast error: " ++ forecastData.reason.getD "")],
         true⟩
      else
        ⟨[(forecastResponseText env latitude longitude tzParam forecastData).trim], false⟩

/-- `get-worldwide-forecast` as registered: zod schema
`latitude: z.number().min(-90).max(90)`,
`longitude: z.number().min(-180).max(180)`,
`timezone: z.string().optional()`, then the handler. -/
def runGetForecast (env : ServerEnv) (latitude longitude : Rat)
    (timezone : Option String) : ToolRun × Nat :=
  if -90 ≤ latitude ∧ latitude ≤ 90 ∧ -180 ≤ longitude ∧ longitude ≤ 180 then
    (ToolRun.ran (getForecastHandler env latitude longitude timezone), 1)
  else (ToolRun.schemaRejected, 0)

/-! ### Substring containment helper -/

/-- `mid` occurs contiguously inside `s`. -/
def containsPiece (s mid : String) : Prop :=
  ∃ p q, s = p ++ (mid ++ q)

/-! ### Concrete inputs used by the per-claim witnesses -/

/-- Concrete client environment for the C1 witness run. -/
def c1Env : ClientEnv :=
  ⟨fun _ => some Json.null,
   fun _ _ => CallToolOutcome.ok [⟨some "out", "x"⟩] false⟩

/-- Concrete endpoint script for the C1 witness run. -/
def c1Replies : List LLMReply :=
  [⟨none, [⟨"id1", "toolA", "args1"⟩]⟩, ⟨some "done", []⟩]

/-- Concrete run result of the C1 witness run. -/
def c1Res : RunResult :=
  ⟨"done",
   [Message.user "hello C1",
    Message.assistant none [⟨"id1", "toolA", "args1"⟩],
    Message.tool "id1" "toolA" "out"], 2, 1⟩

/-- The tool call of the C2 scripted round trip. -/
def c2Call : ToolCall :=
  ⟨"call_1", "get-latlong-from-name", "\x7b\"locationName\":\"Paris\"\x7d"⟩

/-- Concrete client environment for the C2 round trip. -/
def c2Env : ClientEnv :=
  ⟨fun _ => some (Json.obj [("locationName", Json.str "Paris")]),
   fun _ _ => CallToolOutcome.ok [⟨some "48.85,2.35", "x"⟩] false⟩

/-- Concrete endpoint script for the C2 round trip: one geocoding tool call,
then a terminal text reply. -/
def c2Replies : List LLMReply :=
  [⟨none, [c2Call]⟩, ⟨some "It is sunny in Paris.", []⟩]

/-- The tool-result message of the C2 round trip. -/
def c2ToolMsg : Message :=
  Message.tool "call_1" "get-latlong-from-name" "48.85,2.35"

/-- Concrete client environment for the C3 witness run: the tool host throws
a transport error. -/
def c3Env : ClientEnv :=
  ⟨fun _ => some Json.null, fun _ _ => CallToolOutcome.thrown "socket closed"⟩

/-- Concrete client environment for the C4 witness run: only the argument
string "ok" parses. -/
def c4Env : ClientEnv :=
  ⟨fun s => if s = "ok" then some Json.null else none,
   fun _ _ => CallToolOutcome.ok [⟨some "fine", "y"⟩] false⟩

/-- Concrete server environment for the server-side witnesses: every fetch
fails, and the JS library primitives are fixed simple functions. -/
def dummyServerEnv : ServerEnv :=
  ⟨fun _ => none, fun _ => none, fun _ => none,
   fun s => s, fun n _ _ => n, fun s => s, fun _ _ => "0"⟩

/-- Concrete current-weather block with weather code 95 (C7 witness). -/
def c7Current : CurrentWeather :=
  ⟨"2026-02-01T12:00", "70", "68", "50", some 95, "5", "180", "7", "0", "20", "1015"⟩

/-- Concrete daily block whose first day's weather code is 95 (C7 witness). -/
def c7Daily : DailyForecast :=
  ⟨["2026-02-01"], [95], ["75"], ["60"], some ["0.1"]⟩

/-- Concrete Open-Meteo response for the C7 witness. -/
def c7Data : ForecastData :=
  ⟨false, none, some "America/Chicago", some c7Current, some c7Daily, none⟩

/-! ### Client-side lemmas and claim theorems -/

/-- Whatever the parse and host outcomes, processing one request pushes a
tool-role message carrying that request's correlation id and name. -/
theorem execToolCall_fst (env : ClientEnv) (tc : ToolCall) :
    ∃ s, (execToolCall env tc).1 = Message.tool tc.id tc.name s := by
  cases h : env.parse tc.arguments with
  | none =>
      exact ⟨"Error: Could not parse arguments: " ++ tc.arguments,
        by simp [execToolCall, h]⟩
  | some a =>
      cases h2 : env.callTool tc.name a with
      | ok c e =>
          exact ⟨toolResultString tc.name c e, by simp [execToolCall, h, h2]⟩
      | thrown m =>
          exact ⟨"Error executing tool " ++ tc.name ++ " via MCP: " ++
            jsOrElse (some m) "Unknown MCP error", by simp [execToolCall, h, h2]⟩

/-- A request list is resolved by exactly one tool message per request, in
request order, with matching correlation ids. -/
theorem execToolCalls_forall₂ (env : ClientEnv) (tcs : List ToolCall) :
    List.Forall₂ (fun tc m => ∃ s, m = Message.tool tc.id tc.name s)
      tcs (execToolCalls env tcs).1 := by
  induction tcs with
  | nil => simp [execToolCalls]
  | cons tc rest ih =>
      simp only [execToolCalls, List.map_cons] at ih ⊢
      exact List.Forall₂.cons (execToolCall_fst env tc) ih

/-- Transcript shape of a completed loop: the starting history followed by
one assistant-plus-results block per tool round. -/
theorem runLoop_transcript (env : ClientEnv) (replies : List LLMReply) :
    ∀ (hist : List Message) (e k : Nat) (res : RunResult),
      runLoop env replies hist e k = some res →
      ∃ rounds : List LLMReply,
        res.transcript = hist ++ (rounds.map (assistantBlock env)).flatten ∧
        ∀ r ∈ rounds, r.tool_calls ≠ [] := by
  induction replies with
  | nil => intro hist e k res hr; simp [runLoop] at hr
  | cons r rest ih =>
      intro hist e k res hr
      by_cases hempty : r.tool_calls.isEmpty
      · refine ⟨[], ?_, by simp⟩
        simp only [runLoop, if_pos hempty, Option.some.injEq] at hr
        rw [← hr]
        simp
      · simp only [runLoop, if_neg hempty] at hr
        obtain ⟨rounds, ht, hall⟩ := ih _ _ _ _ hr
        refine ⟨r :: rounds, ?_, ?_⟩
        · rw [ht]
          simp [assistantBlock, List.append_assoc]
        · intro r' hr'
          rcases List.mem_cons.mp hr' with h | h
          · subst h
            simpa [List.isEmpty_iff] using hempty
          · exact hall r' h

/-- C1: during one `processQuery` run, every assistant message appended to
the transcript is followed, before the next model call, by exactly one
tool-role message per contained invocation request, in request order, each
carrying the matching `tool_call_id` — regardless of argument-parse failure,
host-reported error, or transport throw. -/
theorem c1_every_request_gets_one_result (env : ClientEnv)
    (replies : List LLMReply) (q : String) (res : RunResult)
    (h : processQuery env true replies q = some res) :
    ∃ rounds : List LLMReply,
      res.transcript = Message.user q :: (rounds.map (assistantBlock env)).flatten ∧
      ∀ r ∈ rounds, r.tool_calls ≠ [] ∧
        List.Forall₂ (fun tc m => ∃ s, m = Message.tool tc.id tc.name s)
          r.tool_calls (execToolCalls env r.tool_calls).1 := by
  obtain ⟨rounds, ht, hall⟩ :=
    runLoop_transcript env replies [Message.user q] 0 0 res
      (by simpa [processQuery] using h)
  exact ⟨rounds, by simpa using ht,
    fun r hr => ⟨hall r hr, execToolCalls_forall₂ env r.tool_calls⟩⟩

/-- Witness for C1: the invariant evaluated on a concrete scripted run. -/
theorem c1_every_request_gets_one_result_witness :
    processQuery c1Env true c1Replies "hello C1" = some c1Res ∧
    ∃ rounds : List LLMReply,
      c1Res.transcript = Message.user "hello C1" ::
        (rounds.map (assistantBlock c1Env)).flatten ∧
      ∀ r ∈ rounds, r.tool_calls ≠ [] ∧
        List.Forall₂ (fun tc m => ∃ s, m = Message.tool tc.id tc.name s)
          r.tool_calls (execToolCalls c1Env r.tool_calls).1 :=
  ⟨rfl, c1_every_request_gets_one_result c1Env c1Replies "hello C1" c1Res rfl⟩

/-- When the argument string parses, the host is invoked exactly once. -/
theorem execToolCall_snd_of_parse (env : ClientEnv) (tc : ToolCall) (a : Json)
    (h : env.parse tc.arguments = some a) : (execToolCall env tc).2 = 1 := by
  cases h2 : env.callTool tc.name a <;> simp [execToolCall, h, h2]

/-- C2 refuted as stated: on a scripted round trip (one geocoding tool call,
then a terminal reply) the run makes two endpoint calls and one host
invocation, but the transcript ends with the tool result — the final
assistant message is never appended to it. -/
theorem c2_round_trip_counterexample :
    processQuery c2Env true c2Replies "Where is Paris?" =
      some ⟨"It is sunny in Paris.",
        [Message.user "Where is Paris?", Message.assistant none [c2Call], c2ToolMsg],
        2, 1⟩ ∧
    ∀ m ∈ [Message.user "Where is Paris?", Message.assistant none [c2Call], c2ToolMsg],
      m ≠ Message.assistant (some "It is sunny in Paris.") [] :=
  ⟨rfl, by decide⟩

/-- C2 amended: for a chat endpoint replying first with exactly one tool call
for the geocoding tool (with parseable arguments) and then with a terminal
reply, `processQuery` makes exactly two endpoint calls and one host
invocation, and the transcript contains, in order, the user message, the
assistant message carrying the invocation, and the tool result message; the
final assistant reply is returned as the answer but is not appended to the
transcript. -/
theorem c2_round_trip_amended (env : ClientEnv) (r1 r2 : LLMReply)
    (tc : ToolCall) (q : String) (h1 : r1.tool_calls = [tc])
    (_hname : tc.name = "get-latlong-from-name")
    (a : Json) (hparse : env.parse tc.arguments = some a)
    (h2 : r2.tool_calls = []) :
    processQuery env true [r1, r2] q =
      some ⟨jsOrElse r2.content noAnswerFallback,
        [Message.user q, Message.assistant r1.content [tc], (execToolCall env tc).1],
        2, 1⟩ := by
  have hsnd := execToolCall_snd_of_parse env tc a hparse
  simp [processQuery, runLoop, h1, h2, execToolCalls, hsnd]

/-- Witness for C2 (amended) at the concrete scripted round trip. -/
theorem c2_round_trip_amended_witness :
    (⟨none, [c2Call]⟩ : LLMReply).tool_calls = [c2Call] ∧
    c2Call.name = "get-latlong-from-name" ∧
    c2Env.parse c2Call.arguments =
      some (Json.obj [("locationName", Json.str "Paris")]) ∧
    (⟨some "It is sunny in Paris.", []⟩ : LLMReply).tool_calls = [] ∧
    processQuery c2Env true c2Replies "C2 witness query" =
      some ⟨jsOrElse (some "It is sunny in Paris.") noAnswerFallback,
        [Message.user "C2 witness query", Message.assistant none [c2Call],
         (execToolCall c2Env c2Call).1],
        2, 1⟩ :=
  ⟨rfl, rfl, rfl, rfl,
   c2_round_trip_amended c2Env ⟨none, [c2Call]⟩ ⟨some "It is sunny in Paris.", []⟩
     c2Call "C2 witness query" rfl rfl _ rfl rfl⟩

/-- C3: when `mcp.callTool` throws a transport-level error, the run still
completes (`DONE` is reached), and the tool-result message appended for that
invocation carries the transport error's message text. -/
theorem c3_transport_error_recovered (env : ClientEnv) (r1 r2 : LLMReply)
    (tc : ToolCall) (q msg : String) (a : Json)
    (h1 : r1.tool_calls = [tc]) (hp : env.parse tc.arguments = some a)
    (hc : env.callTool tc.name a = CallToolOutcome.thrown msg) (hmsg : msg ≠ "")
    (h2 : r2.tool_calls = []) :
    ∃ res, processQuery env true [r1, r2] q = some res ∧
      Message.tool tc.id tc.name
        ("Error executing tool " ++ tc.name ++ " via MCP: " ++ msg) ∈ res.transcript ∧
      ∃ p, "Error executing tool " ++ tc.name ++ " via MCP: " ++ msg = p ++ msg := by
  have hmsg' : jsOrElse (some msg) "Unknown MCP error" = msg := by
    simp [jsOrElse, hmsg]
  refine ⟨⟨jsOrElse r2.content noAnswerFallback,
    [Message.user q, Message.assistant r1.content [tc],
     Message.tool tc.id tc.name
       ("Error executing tool " ++ tc.name ++ " via MCP: " ++ msg)], 2, 1⟩,
    ?_, by simp, ⟨"Error executing tool " ++ tc.name ++ " via MCP: ", rfl⟩⟩
  simp [processQuery, runLoop, h1, h2, execToolCalls, execToolCall, hp, hc, hmsg']

/-- Witness for C3 on a concrete run whose host throws. -/
theorem c3_transport_error_recovered_witness :
    (⟨none, [⟨"id3", "toolB", "args3"⟩]⟩ : LLMReply).tool_calls =
      [⟨"id3", "toolB", "args3"⟩] ∧
    c3Env.parse "args3" = some Json.null ∧
    c3Env.callTool "toolB" Json.null = CallToolOutcome.thrown "socket closed" ∧
    "socket closed" ≠ "" ∧
    (⟨some "final", []⟩ : LLMReply).tool_calls = [] ∧
    ∃ res, processQuery c3Env true
        [⟨none, [⟨"id3", "toolB", "args3"⟩]⟩, ⟨some "final", []⟩] "C3 witness query" =
        some res ∧
      Message.tool "id3" "toolB"
        ("Error executing tool " ++ "toolB" ++ " via MCP: " ++ "socket closed") ∈
          res.transcript ∧
      ∃ p, "Error executing tool " ++ "toolB" ++ " via MCP: " ++ "socket closed" =
        p ++ "socket closed" :=
  ⟨rfl, rfl, rfl, by decide, rfl,
   c3_transport_error_recovered c3Env ⟨none, [⟨"id3", "toolB", "args3"⟩]⟩
     ⟨some "final", []⟩ ⟨"id3", "toolB", "args3"⟩ "C3 witness query" "socket closed"
     Json.null rfl rfl rfl (by decide) rfl⟩

/-- C4: a request whose argument payload fails to parse yields an error tool
result saying the payload could not be parsed, contributes no host
invocation, and the remaining requests are still processed. -/
theorem c4_parse_failure_skips_host (env : ClientEnv) (pre post : List ToolCall)
    (tc : ToolCall) (h : env.parse tc.arguments = none) :
    (execToolCalls env (pre ++ tc :: post)).1 =
      (execToolCalls env pre).1 ++
        Message.tool tc.id tc.name
          ("Error: Could not parse arguments: " ++ tc.arguments) ::
          (execToolCalls env post).1 ∧
    (execToolCalls env (pre ++ tc :: post)).2 =
      (execToolCalls env pre).2 + (execToolCalls env post).2 := by
  constructor
  · simp [execToolCalls, execToolCall, h]
  · simp [execToolCalls, execToolCall, h]

/-- Witness for C4: a malformed-argument request followed by a well-formed
one. -/
theorem c4_parse_failure_skips_host_witness :
    c4Env.parse "not json" = none ∧
    ((execToolCalls c4Env ([] ++ ⟨"id4", "toolC", "not json"⟩ :: [⟨"id5", "toolD", "ok"⟩])).1 =
      (execToolCalls c4Env []).1 ++
        Message.tool "id4" "toolC" ("Error: Could not parse arguments: " ++ "not json") ::
        (execToolCalls c4Env [⟨"id5", "toolD", "ok"⟩]).1 ∧
    (execToolCalls c4Env ([] ++ ⟨"id4", "toolC", "not json"⟩ :: [⟨"id5", "toolD", "ok"⟩])).2 =
      (execToolCalls c4Env []).2 + (execToolCalls c4Env [⟨"id5", "toolD", "ok"⟩]).2) :=
  ⟨rfl, c4_parse_failure_skips_host c4Env [] [⟨"id5", "toolD", "ok"⟩]
    ⟨"id4", "toolC", "not json"⟩ rfl⟩

/-- Answer produced when the loop reaches a terminal reply after rounds of
tool-call replies. -/
theorem runLoop_answer (env : ClientEnv) (r : LLMReply)
    (hterm : r.tool_calls = []) :
    ∀ (replies : List LLMReply), (∀ x ∈ replies, x.tool_calls ≠ []) →
      ∀ (hist : List Message) (e k : Nat),
        ∃ res, runLoop env (replies ++ [r]) hist e k = some res ∧
          res.answer = jsOrElse r.content noAnswerFallback := by
  intro replies
  induction replies with
  | nil =>
      intro _ hist e k
      refine ⟨⟨jsOrElse r.content noAnswerFallback, hist, e + 1, k⟩, ?_, rfl⟩
      simp [runLoop, hterm]
  | cons x rest ih =>
      intro hall hist e k
      have hx : ¬ x.tool_calls.isEmpty := by
        simpa [List.isEmpty_iff] using hall x (by simp)
      obtain ⟨res, hrun, hans⟩ :=
        ih (fun y hy => hall y (List.mem_cons_of_mem x hy))
          ((hist ++ [Message.assistant x.content x.tool_calls]) ++
            (execToolCalls env x.tool_calls).1)
          (e + 1) (k + (execToolCalls env x.tool_calls).2)
      exact ⟨res, by simpa [runLoop, hx] using hrun, hans⟩

/-- C8: when the terminal reply carries no usable text content, `processQuery`
returns a fixed non-empty fallback message; otherwise it returns the reply's
text content. -/
theorem c8_terminal_fallback (env : ClientEnv) (replies : List LLMReply)
    (r : LLMReply) (q : String) (hterm : r.tool_calls = [])
    (hpre : ∀ x ∈ replies, x.tool_calls ≠ []) :
    ∃ res, processQuery env true (replies ++ [r]) q = some res ∧
      ((r.content = none ∨ r.content = some "") → res.answer = noAnswerFallback) ∧
      (∀ c, r.content = some c → c ≠ "" → res.answer = c) ∧
      noAnswerFallback ≠ "" := by
  obtain ⟨res, hrun, hans⟩ :=
    runLoop_answer env r hterm replies hpre [Message.user q] 0 0
  refine ⟨res, by simpa [processQuery] using hrun, ?_, ?_, by decide⟩
  · rintro (h | h) <;> simp [hans, h, jsOrElse]
  · intro c hc hne
    simp [hans, hc, jsOrElse, hne]

/-- Witness for C8: a terminal reply with empty content yields the fallback. -/
theorem c8_terminal_fallback_witness :
    (⟨some "", []⟩ : LLMReply).tool_calls = [] ∧
    ∃ res, processQuery c1Env true ([] ++ [(⟨some "", []⟩ : LLMReply)]) "C8 witness query" =
        some res ∧
      (((⟨some "", []⟩ : LLMReply).content = none ∨
        (⟨some "", []⟩ : LLMReply).content = some "") → res.answer = noAnswerFallback) ∧
      (∀ c, (⟨some "", []⟩ : LLMReply).content = some c → c ≠ "" → res.answer = c) ∧
      noAnswerFallback ≠ "" :=
  ⟨rfl, c8_terminal_fallback c1Env [] ⟨some "", []⟩ "C8 witness query" rfl
    (by intro x hx; simp at hx)⟩

/-- C9: the readiness flag becomes true only through a successful warm-up
call; a query made while the flag is false throws a not-ready error and makes
no network request; a failed warm-up records its error message and returns
normally with the flag still false. -/
theorem c9_readiness_gate :
    (∀ o : NetOutcome, (createHandler o).ready = true ↔ ∃ r, o = NetOutcome.ok r) ∧
    (∀ (st : HandlerState) (net : NetOutcome), st.ready = false →
      queryWithHistory st net =
        (Except.error "RequestHandler not ready", 0,
         recordError st "RequestHandler not ready")) ∧
    (∀ m : String, (createHandler (NetOutcome.fail m)).ready = false ∧
      m ∈ (createHandler (NetOutcome.fail m)).errors) := by
  refine ⟨?_, ?_, ?_⟩
  · intro o
    cases o with
    | ok r => simp [createHandler, warmup]
    | fail m => simp [createHandler, warmup, recordError]
  · intro st net h
    simp [queryWithHistory, h]
  · intro m
    constructor <;> simp [createHandler, warmup, recordError]

/-- Witness for C9 at concrete outcomes and states. -/
theorem c9_readiness_gate_witness :
    ((createHandler (NetOutcome.ok "pong")).ready = true ↔
      ∃ r, NetOutcome.ok "pong" = NetOutcome.ok r) ∧
    queryWithHistory ⟨false, []⟩ (NetOutcome.ok "pong") =
      (Except.error "RequestHandler not ready", 0,
       recordError ⟨false, []⟩ "RequestHandler not ready") ∧
    ((createHandler (NetOutcome.fail "warmup boom")).ready = false ∧
      "warmup boom" ∈ (createHandler (NetOutcome.fail "warmup boom")).errors) :=
  ⟨c9_readiness_gate.1 (NetOutcome.ok "pong"),
   c9_readiness_gate.2.1 ⟨false, []⟩ (NetOutcome.ok "pong") rfl,
   c9_readiness_gate.2.2 "warmup boom"⟩

/-! ### Server-side lemmas and claim theorems -/

theorem char_ofNat_toNat {n : Nat} (h : n.isValidChar) :
    (Char.ofNat n).toNat = n := by
  simp only [Char.ofNat, dif_pos h, Char.ofNatAux, Char.toNat]
  simp [UInt32.toNat]

theorem char_toUpper_eq (c : Char) :
    c.toUpper = if c.toNat ≥ 97 ∧ c.toNat ≤ 122 then Char.ofNat (c.toNat - 32) else c := rfl

theorem char_toUpper_idem (c : Char) : c.toUpper.toUpper = c.toUpper := by
  rw [char_toUpper_eq c]
  by_cases h : c.toNat ≥ 97 ∧ c.toNat ≤ 122
  · rw [if_pos h, char_toUpper_eq]
    have hv : (c.toNat - 32).isValidChar := Or.inl (by omega)
    rw [char_ofNat_toNat hv, if_neg (by omega)]
  · rw [if_neg h, char_toUpper_eq, if_neg h]

/-- On ASCII characters the uppercase mapping is the single basic-latin
uppercase character. -/
theorem jsUpperChar_ascii (c : Char) (h : c.toNat < 128) :
    jsUpperChar c = [c.toUpper] := by
  rw [jsUpperChar, if_neg]
  intro heq
  rw [heq] at h
  exact absurd h (by decide)

theorem char_toUpper_toNat_lt (c : Char) (h : c.toNat < 128) :
    c.toUpper.toNat < 128 := by
  rw [char_toUpper_eq]
  by_cases h2 : c.toNat ≥ 97 ∧ c.toNat ≤ 122
  · rw [if_pos h2, char_ofNat_toNat (Or.inl (by omega))]
    omega
  · rw [if_neg h2]
    exact h

theorem flatten_jsUpperChar_ascii (l : List Char) (h : ∀ c ∈ l, c.toNat < 128) :
    (l.map jsUpperChar).flatten = l.map Char.toUpper := by
  induction l with
  | nil => rfl
  | cons c cs ih =>
      rw [List.map_cons, List.map_cons, List.flatten_cons,
        jsUpperChar_ascii c (h c (List.mem_cons_self c cs)),
        ih (fun x hx => h x (List.mem_cons_of_mem c hx))]
      rfl

/-- On ASCII input, uppercasing is the per-character basic-latin map. -/
theorem jsToUpperCase_ascii (s : String) (h : ∀ c ∈ s.data, c.toNat < 128) :
    jsToUpperCase s = ⟨s.data.map Char.toUpper⟩ :=
  congrArg String.mk (flatten_jsUpperChar_ascii s.data h)

theorem jsToUpperCase_length_ascii (s : String) (h : ∀ c ∈ s.data, c.toNat < 128) :
    (jsToUpperCase s).length = s.length := by
  rw [jsToUpperCase_ascii s h]
  simp only [String.length, List.length_map]

theorem jsToUpperCase_data_ascii (s : String) (h : ∀ c ∈ s.data, c.toNat < 128) :
    ∀ c ∈ (jsToUpperCase s).data, c.toNat < 128 := by
  rw [jsToUpperCase_ascii s h]
  intro c hc
  obtain ⟨a, ha, rfl⟩ := List.mem_map.mp hc
  exact char_toUpper_toNat_lt a (h a ha)

/-- On ASCII input, uppercasing is idempotent, so the handler sees the same
state code for `s` and for its uppercased form. -/
theorem jsToUpperCase_idem_ascii (s : String) (h : ∀ c ∈ s.data, c.toNat < 128) :
    jsToUpperCase (jsToUpperCase s) = jsToUpperCase s := by
  rw [jsToUpperCase_ascii _ (jsToUpperCase_data_ascii s h), jsToUpperCase_ascii s h]
  congr 1
  show (s.data.map Char.toUpper).map Char.toUpper = s.data.map Char.toUpper
  rw [List.map_map]
  exact List.map_congr_left fun c _ => char_toUpper_idem c

theorem containsPiece_right {s mid : String} (a : String)
    (h : containsPiece s mid) : containsPiece (a ++ s) mid := by
  obtain ⟨p, q, rfl⟩ := h
  exact ⟨a ++ p, q, (String.append_assoc a p _).symm⟩

theorem containsPiece_left {s mid : String} (b : String)
    (h : containsPiece s mid) : containsPiece (s ++ b) mid := by
  obtain ⟨p, q, rfl⟩ := h
  refine ⟨p, q ++ b, ?_⟩
  simp [String.append_assoc]

/-- A three-piece head occurrence. -/
theorem containsPiece_head₃ (a b c q : String) :
    containsPiece (a ++ (b ++ (c ++ q))) (a ++ (b ++ c)) := by
  refine ⟨"", q, ?_⟩
  rw [String.empty_append]
  simp [String.append_assoc]

theorem str_foldl_append (xs : List String) :
    ∀ a : String, xs.foldl (fun r s => r ++ s) a =
      a ++ xs.foldl (fun r s => r ++ s) "" := by
  induction xs with
  | nil => intro a; simp [String.append_empty]
  | cons x xs ih =>
      intro a
      simp only [List.foldl_cons]
      rw [ih (a ++ x), ih ("" ++ x), String.empty_append, String.append_assoc]

theorem str_join_cons (x : String) (xs : List String) :
    String.join (x :: xs) = x ++ String.join xs := by
  simp only [String.join, List.foldl_cons]
  rw [str_foldl_append xs ("" ++ x), String.empty_append]

theorem containsPiece_join (l : List String) (mid : String) :
    ∀ (i : Nat) (h : i < l.length),
      containsPiece (l.get ⟨i, h⟩) mid → containsPiece (String.join l) mid := by
  induction l with
  | nil => intro i h; simp at h
  | cons x xs ih =>
      intro i h hc
      rw [str_join_cons]
      cases i with
      | zero => exact containsPiece_left _ hc
      | succ j => exact containsPiece_right x (ih j (by simpa using h) hc)

/-- C5: the declared zod schemas reject malformed arguments before any HTTP
request is attempted: a state code whose length is not 2, an empty location
name, and an out-of-range latitude each produce a schema rejection with zero
outbound network calls. -/
theorem c5_schema_rejects_before_network (env : ServerEnv)
    (net : String → Option AlertsData) (state locationName : String)
    (latitude longitude : Rat) (timezone : Option String)
    (hstate : state.length ≠ 2) (hloc : locationName = "")
    (hlat : ¬ (-90 ≤ latitude ∧ latitude ≤ 90)) :
    runGetAlerts net state = (ToolRun.schemaRejected, 0) ∧
    runGetLatLong env locationName = (ToolRun.schemaRejected, 0) ∧
    runGetForecast env latitude longitude timezone = (ToolRun.schemaRejected, 0) := by
  refine ⟨?_, ?_, ?_⟩
  · rw [runGetAlerts, if_neg hstate]
  · subst hloc
    rw [runGetLatLong, if_neg (by decide)]
  · rw [runGetForecast, if_neg fun h => hlat ⟨h.1, h.2.1⟩]

/-- Witness for C5 at the spec's concrete malformed inputs. -/
theorem c5_schema_rejects_before_network_witness :
    ("CAL".length ≠ 2 ∧ ("" : String) = "" ∧
      ¬ ((-90 : Rat) ≤ 95 ∧ (95 : Rat) ≤ 90)) ∧
    (runGetAlerts (fun _ => none) "CAL" = (ToolRun.schemaRejected, 0) ∧
      runGetLatLong dummyServerEnv "" = (ToolRun.schemaRejected, 0) ∧
      runGetForecast dummyServerEnv 95 0 none = (ToolRun.schemaRejected, 0)) :=
  ⟨⟨by decide, rfl, by norm_num⟩,
   c5_schema_rejects_before_network dummyServerEnv (fun _ => none) "CAL" ""
     95 0 none (by decide) rfl (by norm_num)⟩

/-- C6: for a well-formed two-letter code whose alerts feed returns zero
items, `get-alerts` returns exactly the no-active-alerts text for the
uppercased code, with no error flag, after its single HTTP request. -/
theorem c6_no_alerts_text (net : String → Option AlertsData) (state : String)
    (d : AlertsData) (hlen : state.length = 2)
    (hnet : net (alertsUrl (jsToUpperCase state)) = some d)
    (hempty : d.features.getD [] = []) :
    runGetAlerts net state =
      (ToolRun.ran ⟨["No active NWS alerts for " ++ jsToUpperCase state ++
        " at this time."], false⟩, 1) := by
  simp [runGetAlerts, hlen, getAlertsHandler, hnet, hempty]

/-- Witness for C6: state "ca" against a feed with zero items. -/
theorem c6_no_alerts_text_witness :
    ("ca".length = 2 ∧
      (fun _ : String => some (AlertsData.mk (some [])))
        (alertsUrl (jsToUpperCase "ca")) = some (AlertsData.mk (some [])) ∧
      (AlertsData.mk (some [])).features.getD [] = []) ∧
    runGetAlerts (fun _ => some (AlertsData.mk (some []))) "ca" =
      (ToolRun.ran ⟨["No active NWS alerts for " ++ jsToUpperCase "ca" ++
        " at this time."], false⟩, 1) :=
  ⟨⟨by decide, rfl, rfl⟩,
   c6_no_alerts_text (fun _ => some (AlertsData.mk (some []))) "ca"
     (AlertsData.mk (some [])) (by decide) rfl rfl⟩

/-- C10 refuted as stated: uppercasing is not length-preserving. At the
two-letter input "ße" JS uppercasing yields "SSE", so `get-alerts` processes
the original input (one request, messages naming SSE) while the invocation
with its uppercased form is rejected by the length-2 schema with no request —
the two invocations do not produce the same result. -/
theorem c10_alerts_uppercase_counterexample :
    "ße".length = 2 ∧
    jsToUpperCase "ße" = "SSE" ∧
    runGetAlerts (fun _ => none) "ße" =
      (ToolRun.ran ⟨["Failed to retrieve alerts data from NWS for SSE. The API might be down, the state code might be invalid, or there could be a network issue."],
        true⟩, 1) ∧
    runGetAlerts (fun _ => none) (jsToUpperCase "ße") = (ToolRun.schemaRejected, 0) ∧
    runGetAlerts (fun _ => none) "ße" ≠
      runGetAlerts (fun _ => none) (jsToUpperCase "ße") := by
  refine ⟨by decide, by decide, by decide, by decide, by decide⟩

/-- C10 amended: `get-alerts` normalizes its state argument to uppercase:
for every two-letter input made of basic-latin (ASCII) characters, the input
and its uppercased form produce the same request URL and the same invocation
result, and every returned message text names the uppercased code. -/
theorem c10_alerts_uppercase_normalization (net : String → Option AlertsData)
    (s : String) (hlen : s.length = 2)
    (hascii : ∀ c ∈ s.data, c.toNat < 128) :
    getAlertsRequestUrl s = getAlertsRequestUrl (jsToUpperCase s) ∧
    runGetAlerts net s = runGetAlerts net (jsToUpperCase s) ∧
    ∀ t ∈ (getAlertsHandler net s).content, containsPiece t (jsToUpperCase s) := by
  have hidem := jsToUpperCase_idem_ascii s hascii
  have hhandler : getAlertsHandler net s = getAlertsHandler net (jsToUpperCase s) := by
    simp only [getAlertsHandler, hidem]
  refine ⟨?_, ?_, ?_⟩
  · simp only [getAlertsRequestUrl, hidem]
  · simp only [runGetAlerts, jsToUpperCase_length_ascii s hascii, hlen, hhandler, if_pos]
  · intro t ht
    cases hnet : net (alertsUrl (jsToUpperCase s)) with
    | none =>
        simp only [getAlertsHandler, hnet, List.mem_singleton] at ht
        subst ht
        exact ⟨"Failed to retrieve alerts data from NWS for ",
          ". The API might be down, the state code might be invalid, or there could be a network issue.",
          by simp [String.append_assoc]⟩
    | some d =>
        by_cases hf : (d.features.getD []).isEmpty
        · simp [getAlertsHandler, hnet, hf] at ht
          subst ht
          exact ⟨"No active NWS alerts for ", " at this time.",
            by simp [String.append_assoc]⟩
        · simp [getAlertsHandler, hnet, hf] at ht
          subst ht
          exact ⟨"Active NWS alerts for ",
            ":\n\n" ++ String.intercalate "\n" ((d.features.getD []).map formatNWSAlert),
            by simp [String.append_assoc]⟩

/-- Witness for C10 (amended) at state "tx" against a failing feed. -/
theorem c10_alerts_uppercase_normalization_witness :
    ("tx".length = 2 ∧ ∀ c ∈ "tx".data, c.toNat < 128) ∧
    (getAlertsRequestUrl "tx" = getAlertsRequestUrl (jsToUpperCase "tx") ∧
      runGetAlerts (fun _ => none) "tx" =
        runGetAlerts (fun _ => none) (jsToUpperCase "tx") ∧
      ∀ t ∈ (getAlertsHandler (fun _ => none) "tx").content,
        containsPiece t (jsToUpperCase "tx")) :=
  ⟨⟨by decide, by decide⟩,
   c10_alerts_uppercase_normalization (fun _ => none) "tx" (by decide) (by decide)⟩

/-- Splitting a join at a known element. -/
theorem containsPiece_join_at (l : List String) (mid x : String) (i : Nat)
    (h : i < l.length) (hx : l.get ⟨i, h⟩ = x) (hc : containsPiece x mid) :
    containsPiece (String.join l) mid := by
  subst hx
  exact containsPiece_join l mid i h hc

/-- C7: the fixed code table maps 95 to "Thunderstorm", and any forecast
response whose current or daily weather code is 95 renders "Thunderstorm" as
that entry's weather description in the assembled report. -/
theorem c7_weather_code_95_renders_thunderstorm (env : ServerEnv)
    (lat lon : Rat) (tz : String) (d : ForecastData) :
    getWeatherDescription (some 95) = "Thunderstorm" ∧
    (∀ current, d.current = some current → current.weather_code = some 95 →
      containsPiece (forecastResponseText env lat lon tz d)
        "Weather: Thunderstorm\n") ∧
    (∀ daily i, d.daily = some daily → i < daily.time.length →
      daily.weather_code.get? i = some 95 →
      containsPiece (forecastResponseText env lat lon tz d)
        "  Weather: Thunderstorm\n") := by
  refine ⟨rfl, ?_, ?_⟩
  · intro current hc hwc
    have hdesc : getWeatherDescription current.weather_code = "Thunderstorm" := by
      rw [hwc]; rfl
    rw [show ("Weather: Thunderstorm\n" : String) =
      "Weather: " ++ ("Thunderstorm" ++ "\n") from rfl]
    simp only [forecastResponseText, hc, hdesc, String.append_assoc]
    repeat first
      | exact containsPiece_head₃ _ _ _ _
      | apply containsPiece_right
  · intro daily i hd hi hwc
    have hdesc : getWeatherDescription (daily.weather_code.get? i) = "Thunderstorm" := by
      rw [hwc]; rfl
    have hpos : 0 < daily.time.length := Nat.lt_of_le_of_lt (Nat.zero_le i) hi
    rw [show ("  Weather: Thunderstorm\n" : String) =
      "  Weather: " ++ ("Thunderstorm" ++ "\n") from rfl]
    simp only [forecastResponseText, hd, hpos, if_true, String.append_assoc]
    repeat apply containsPiece_right
    refine containsPiece_join_at _ _ (renderForecastDay d.daily_units daily i) i
      (by simpa using hi) (by simp) ?_
    simp only [renderForecastDay, hdesc, String.append_assoc]
    repeat first
      | exact containsPiece_head₃ _ _ _ _
      | apply containsPiece_right

/-- Witness for C7 at a concrete synthetic forecast response. -/
theorem c7_weather_code_95_renders_thunderstorm_witness :
    (c7Data.current = some c7Current ∧ c7Current.weather_code = some 95 ∧
     c7Data.daily = some c7Daily ∧ 0 < c7Daily.time.length ∧
     c7Daily.weather_code.get? 0 = some 95) ∧
    getWeatherDescription (some 95) = "Thunderstorm" ∧
    containsPiece (forecastResponseText dummyServerEnv 30 (-97) "auto" c7Data)
      "Weather: Thunderstorm\n" ∧
    containsPiece (forecastResponseText dummyServerEnv 30 (-97) "auto" c7Data)
      "  Weather: Thunderstorm\n" :=
  ⟨⟨rfl, rfl, rfl, by decide, rfl⟩,
   (c7_weather_code_95_renders_thunderstorm dummyServerEnv 30 (-97) "auto" c7Data).1,
   (c7_weather_code_95_renders_thunderstorm dummyServerEnv 30 (-97) "auto" c7Data).2.1
     c7Current rfl rfl,
   (c7_weather_code_95_renders_thunderstorm dummyServerEnv 30 (-97) "auto" c7Data).2.2
     c7Daily 0 rfl (by decide) rfl⟩

end WeatherMCP
